import Mathlib

/-!
Shallow embedding of the `@gremllm/nextjs` package: the native-library
provisioning script (`src/scripts/download-binary.ts`), the FFI bridge
(`src/lib/ffi.ts`), the Next.js config wrapper (`src/lib/config.ts`), the
stage-2 route handler (`src/route.ts`) and the stage-1 middleware helper
(`gremllmMiddleware`).

Conventions of the embedding:
* JavaScript strings are Lean `String`s.
* Fallible functions (JS `throw`) return `Except String α` carrying the
  error message.
* External effects (HTTP responses, the archive's file listing, the native
  `Convert` call, `JSON.parse`) are passed in as explicit oracles, so that
  each run of an embedded function is a pure computation over them.
* `path.join` is embedded as string concatenation with `/` (no `..`
  normalisation, which the code never relies on).
-/

namespace Gremllm

/-- Embedding of `path.join a b` as used by the scripts (no normalisation). -/
def pathJoin (a b : String) : String := a ++ "/" ++ b

/-- Whether `pre` is a prefix of `l` (on characters). -/
def charsPfx : List Char → List Char → Bool
  | [], _ => true
  | _ :: _, [] => false
  | a :: as, b :: bs => a = b && charsPfx as bs

/-- Whether `sub` occurs contiguously inside `l` (on characters). -/
def charsSub (sub : List Char) : List Char → Bool
  | [] => charsPfx sub []
  | c :: rest => charsPfx sub (c :: rest) || charsSub sub rest

/-- JavaScript `s.includes(sub)`: substring containment. -/
def strIncludes (s sub : String) : Bool := charsSub sub.data s.data

/-- JavaScript `s.endsWith(suf)`: suffix check (a prefix check on the
reversed character lists). -/
def strEndsWith (s suf : String) : Bool :=
  charsPfx suf.data.reverse s.data.reverse

/-! ## Platform resolver (`src/scripts/download-binary.ts`, `src/lib/ffi.ts`)

`process.platform` and `process.arch` are passed as arguments. -/

/-- Embedding of `getBinaryName` from `download-binary.ts` (first variant, lines 22-41). -/
def getBinaryName (platform arch : String) : Except String String :=
  if platform = "darwin" then
    if arch = "arm64" then .ok "libschema_darwin_arm64.dylib"
    else .ok "libschema_darwin_amd64.dylib"
  else if platform = "linux" then
    if arch = "arm64" then .ok "libschema_linux_arm64.so"
    else .ok "libschema_linux_amd64.so"
  else if platform = "win32" then .ok "libschema_windows_amd64.dll"
  else .error ("Unsupported platform: " ++ platform ++ " " ++ arch)

/-- Embedding of `getArchiveName` from `download-binary.ts` (archive variant, lines 205-224). -/
def getArchiveName (platform arch : String) : Except String String :=
  if platform = "darwin" then
    if arch = "arm64" then .ok "libschema-darwin-arm64_darwin_arm64_v8.0.tar.gz"
    else .ok "libschema-darwin-amd64_darwin_amd64_v1.tar.gz"
  else if platform = "linux" then
    if arch = "arm64" then .ok "libschema-linux-arm64_linux_arm64_v8.0.tar.gz"
    else .ok "libschema-linux-amd64_linux_amd64_v1.tar.gz"
  else if platform = "win32" then .ok "libschema-windows-amd64_windows_amd64_v1.zip"
  else .error ("Unsupported platform: " ++ platform ++ " " ++ arch)

/-- Embedding of `getLocalFilename` from `download-binary.ts` (lines 46-58 / 229-241). -/
def getLocalFilename (platform : String) : Except String String :=
  if platform = "darwin" then .ok "libschema.dylib"
  else if platform = "linux" then .ok "libschema.so"
  else if platform = "win32" then .ok "libschema.dll"
  else .error ("Unsupported platform: " ++ platform)

/-- The `libName` selection at the top of `getLibraryPath` (`src/lib/ffi.ts`,
lines 11-20). -/
def libNameFor (platform : String) : Except String String :=
  if platform = "darwin" then .ok "libschema.dylib"
  else if platform = "linux" then .ok "libschema.so"
  else if platform = "win32" then .ok "libschema.dll"
  else .error ("Unsupported platform: " ++ platform)

/-- Embedding of `getLibraryPath` from `src/lib/ffi.ts` (lines 7-42). `dirname` stands for
`__dirname`, `cwd` for `process.cwd()`, and `existsFs` for
`fs.existsSync`. -/
def getLibraryPath (platform dirname cwd : String) (existsFs : String → Bool) :
    Except String String :=
  match libNameFor platform with
  | .error e => .error e
  | .ok libName =>
    let possiblePaths : List String :=
      [ pathJoin (pathJoin dirname "../../binaries") libName,
        pathJoin (pathJoin cwd "binaries") libName,
        pathJoin (pathJoin (pathJoin (pathJoin cwd "node_modules") "@gremllm") "nextjs/binaries") libName ]
    match possiblePaths.find? (fun p => existsFs p) with
    | some p => .ok p
    | none =>
        .error ("Could not find gremllm library. Searched:\n"
          ++ String.intercalate "\n" possiblePaths
          ++ "\n\nPlease run 'npm install' to download the binary for your platform.")

/-! ## Conversion bridge (`src/lib/ffi.ts`, lines 77-116)

The native boundary (`ensureLibraryLoaded` + the koffi `Convert` call) is one
oracle `native : String → List String → Except Unit (Option String)`:
`.error ()` is a thrown exception (library failed to load, or the call
threw), `.ok none` is a null result pointer, `.ok (some s)` a successful
conversion. -/

/-- Observable outcome of one `convert` call: the returned string and whether
the native boundary was crossed. -/
structure ConvOutcome where
  result : String
  nativeCalled : Bool
  deriving Repr, DecidableEq

/-- Embedding of `convert` from `src/lib/ffi.ts` (lines 77-99). `if (!html) return ''` is
the empty-string short-circuit; both the null result and a thrown exception
degrade to returning the original `html`. -/
def convert (native : String → List String → Except Unit (Option String))
    (html : String) (elementsToStrip : List String) : ConvOutcome :=
  if html = "" then ⟨"", false⟩
  else
    match native html elementsToStrip with
    | .error () => ⟨html, true⟩
    | .ok none => ⟨html, true⟩
    | .ok (some r) => ⟨r, true⟩

/-- Embedding of `convertWithDefaults` from `src/lib/ffi.ts` (lines 112-116). -/
def convertWithDefaults (native : String → List String → Except Unit (Option String))
    (html : String) : ConvOutcome :=
  convert native html []

/-! ## Downloader (`src/scripts/download-binary.ts`, lines 277-309)

An HTTP GET is modelled by an oracle `resp : String → HttpResponse` from the
request URL to the response observed. `downloadFile` recurses on redirects;
the recursion is bounded by a `fuel` argument (the JS code recurses without
bound, so any terminating run is reproduced by a large enough fuel). The
returned pair is (final outcome — the body written to `dest` on success —
and the number of HTTP requests issued). -/

/-- A release asset (`interface Asset`, `download-binary.ts` lines 192-195). -/
structure Asset where
  name : String
  browser_download_url : String
  deriving Repr, DecidableEq

/-- A release manifest (`interface Release`, `download-binary.ts` lines
197-200). -/
structure Release where
  tag_name : String
  assets : List Asset
  deriving Repr, DecidableEq

/-- One observed HTTP response: status code, optional `Location` header and
the body. -/
structure HttpResponse where
  statusCode : Nat
  location : Option String
  body : String
  deriving Repr

/-- Embedding of `downloadFile` from `download-binary.ts` (lines 277-309): 301/302 with a
`Location` re-issues the request there; 301/302 without a `Location` rejects
with `Redirect without location`; any other non-200 status rejects with
`Failed to download`; a 200 writes the body to `dest`. -/
def downloadFile (resp : String → HttpResponse) : Nat → String →
    Except String String × Nat
  | 0, _ => (.error "out of fuel", 0)
  | fuel + 1, url =>
    let r := resp url
    if r.statusCode = 302 ∨ r.statusCode = 301 then
      match r.location with
      | some loc =>
          let next := downloadFile resp fuel loc
          (next.1, next.2 + 1)
      | none => (.error "Redirect without location", 1)
    else if r.statusCode ≠ 200 then
      (.error ("Failed to download: " ++ toString r.statusCode), 1)
    else (.ok r.body, 1)

/-! ## Archive installer (`src/scripts/download-binary.ts`, lines 314-423)

The contents the archiver extracts into the temp directory are an oracle
`archiveFiles : List String` (the result of `fs.readdirSync(tempDir)`). -/

/-- The library-payload heuristic applied to each extracted file name
(`download-binary.ts` lines 340-342): exact name `libschema`, or extension
`.dylib` / `.so` / `.dll`. -/
def isLibFileName (f : String) : Bool :=
  f = "libschema" || strEndsWith f ".dylib" || strEndsWith f ".so" || strEndsWith f ".dll"

/-- The same heuristic in the multi-platform fetch script
(`download-binary.ts` line 524-525), which additionally accepts `.exe`. -/
def isLibFileNameExe (f : String) : Bool :=
  f = "libschema" || strEndsWith f ".dylib" || strEndsWith f ".so" || strEndsWith f ".dll"
    || strEndsWith f ".exe"

/-- Embedding of `extractArchive` from `download-binary.ts` (lines 314-359): dispatch on
the archive extension, extract into `destDir/.temp-extract`, then select the
library payload with `files.find(...)` and return its path (the `chmod` on
Unix has no effect modelled here). -/
def extractArchive (archivePath destDir : String) (archiveFiles : List String) :
    Except String String :=
  let isZip := strEndsWith archivePath ".zip"
  let isTarGz := strEndsWith archivePath ".tar.gz"
  if !isZip && !isTarGz then
    .error ("Unsupported archive format: " ++ archivePath)
  else
    let tempDir := pathJoin destDir ".temp-extract"
    match archiveFiles.find? (fun f => isLibFileName f) with
    | none => .error ("No library file found in archive: "
        ++ String.intercalate ", " archiveFiles)
    | some libFile => .ok (pathJoin tempDir libFile)

/-- The external world an install run observes: the release manifest fetch
(already resolved to its settled promise), the HTTP responses seen by
`downloadFile` with its fuel, and the archive's extracted file listing. -/
structure InstallEnv where
  fetchRelease : Except String Release
  resp : String → HttpResponse
  fuel : Nat
  archiveFiles : List String

/-- Outcome of one run of `main`: success or the caught error, the set of
paths present afterwards (the filesystem is a list of paths; extracted
temp-directory internals are not tracked individually), and the number of
network requests issued. -/
structure InstallOutcome where
  result : Except String Unit
  files : List String
  requests : Nat
  deriving Repr

/-- Embedding of `main` from `download-binary.ts` (archive variant, lines 364-421):
resolve platform names; skip everything when `destPath` already exists;
otherwise fetch the release manifest (one request), locate the asset,
download the archive, extract it, rename the payload to `destPath`, and
unlink the archive. `dirname` stands for `__dirname`; `BINARY_DIR` is
`path.join(dirname, '../../binaries')`. -/
def mainRun (platform arch dirname : String) (env : InstallEnv)
    (fs : List String) : InstallOutcome :=
  match getArchiveName platform arch with
  | .error e => ⟨.error e, fs, 0⟩
  | .ok archiveName =>
    match getLocalFilename platform with
    | .error e => ⟨.error e, fs, 0⟩
    | .ok localFilename =>
      let binaryDir := pathJoin dirname "../../binaries"
      let destPath := pathJoin binaryDir localFilename
      if fs.contains destPath then ⟨.ok (), fs, 0⟩
      else
        match env.fetchRelease with
        | .error e => ⟨.error e, fs, 1⟩
        | .ok release =>
          match release.assets.find? (fun a => a.name = archiveName) with
          | none => ⟨.error ("Binary not found in release " ++ release.tag_name
              ++ ". Looking for: " ++ archiveName), fs, 1⟩
          | some asset =>
            let archivePath := pathJoin binaryDir archiveName
            let dl := downloadFile env.resp env.fuel asset.browser_download_url
            match dl.1 with
            | .error e => ⟨.error e, fs, 1 + dl.2⟩
            | .ok _ =>
              let fs1 := fs ++ [archivePath]
              match extractArchive archivePath binaryDir env.archiveFiles with
              | .error e => ⟨.error e, fs1, 1 + dl.2⟩
              | .ok extractedLibPath =>
                let fs2 := fs1.filter (fun p => p ≠ extractedLibPath) ++ [destPath]
                let fs3 := fs2.filter (fun p => p ≠ archivePath)
                ⟨.ok (), fs3, 1 + dl.2⟩

/-! ## URLs, headers and environment

`URL` objects carry scheme, host, path and a search-parameter list (in
order). `searchParams.has` / `searchParams.delete` and `toString` follow the
WHATWG behaviour the code relies on. Header and environment maps are
association lists looked up front-to-back; `set` replaces any existing
entry. -/

/-- A parsed URL: scheme, host (with any port), path and ordered query
parameters. -/
structure Url where
  scheme : String
  host : String
  path : String
  query : List (String × String)
  deriving Repr, DecidableEq

/-- Embedding of `url.searchParams.has(k)`. -/
def hasParam (u : Url) (k : String) : Bool := u.query.any (fun p => p.1 = k)

/-- Embedding of `url.searchParams.delete(k)`: removes every pair with that key. -/
def deleteParam (u : Url) (k : String) : Url :=
  { u with query := u.query.filter (fun p => p.1 ≠ k) }

/-- Serialisation of the query part: empty when no parameters, otherwise
`?k=v&...`. -/
def renderQuery : List (String × String) → String
  | [] => ""
  | ps => "?" ++ String.intercalate "&" (ps.map (fun p => p.1 ++ "=" ++ p.2))

/-- Embedding of `url.toString()`. -/
def urlToString (u : Url) : String :=
  u.scheme ++ "://" ++ u.host ++ u.path ++ renderQuery u.query

/-- Embedding of `new URL('/api/gremllm', base)`: an absolute path against `base` keeps
the base's scheme and host and drops its path and query. -/
def resolveAgainst (path : String) (base : Url) : Url :=
  { scheme := base.scheme, host := base.host, path := path, query := [] }

/-- Association-list lookup (first match), as for `headers.get` and
`process.env` reads. -/
def assocGet (m : List (String × String)) (k : String) : Option String :=
  (m.find? (fun p => p.1 = k)).map (fun p => p.2)

/-- Embedding of `headers.set(k, v)` and of the object-spread override: any existing entry is
replaced by the new one. -/
def assocSet (m : List (String × String)) (k v : String) : List (String × String) :=
  m.filter (fun p => p.1 ≠ k) ++ [(k, v)]

/-! ## Stage-1 detector (`gremllmMiddleware`) -/

/-- An inbound request as the middleware sees it: `request.url` (parsed) and
`request.headers`. -/
structure Request where
  url : Url
  headers : List (String × String)
  deriving Repr

/-- The rewrite a middleware run may issue: the rewrite target and the
request headers forwarded with it. -/
structure Rewrite where
  rewriteUrl : Url
  headers : List (String × String)
  deriving Repr

/-- Embedding of `gremllmMiddleware`: pass through (`null`) without the `gremllm` query
parameter; with it, rewrite to `/api/gremllm` carrying the original URL
(with the `gremllm` parameter deleted) in the `x-gremllm-url` header. -/
def gremllmMiddleware (request : Request) : Option Rewrite :=
  let hasGremllm := hasParam request.url "gremllm"
  if !hasGremllm then none
  else
    let originalUrl := deleteParam request.url "gremllm"
    let rewriteUrl := resolveAgainst "/api/gremllm" request.url
    let requestHeaders := assocSet request.headers "x-gremllm-url" (urlToString originalUrl)
    some ⟨rewriteUrl, requestHeaders⟩

/-! ## Config wrapper (`src/lib/config.ts`) -/

/-- The environment key `withGremllm` writes its serialised config under
(`config.ts` line 45). -/
def withGremllmEnvKey : String := "__GREMLLM_CONFIG__"

/-- The environment key the route handler reads its config from
(`route.ts` line 27). -/
def routeConfigEnvKey : String := "GREMLLM_CONFIG"

/-- The `env` object produced by `withGremllm` (`config.ts` lines 39-47):
the caller's `nextConfig.env` spread first, then the serialised gremllm
config under `withGremllmEnvKey`. `serialized` stands for
`JSON.stringify(gremllmConfig)`. -/
def withGremllmEnv (baseEnv : List (String × String)) (serialized : String) :
    List (String × String) :=
  assocSet baseEnv withGremllmEnvKey serialized

/-! ## Stage-2 invoker (`src/route.ts`) -/

/-- The parsed shape of the serialised gremllm config as the route handler
uses it: `config.elementsToStrip` (possibly absent) and `config.debug`. -/
structure GremllmCfg where
  elementsToStrip : Option (List String)
  debug : Bool
  deriving Repr

/-- One `fetch` response as the route handler observes it: status, the
`Content-Type` header, and the body text. `ok` is 200-299. -/
structure FetchResponse where
  status : Nat
  contentTypeHdr : Option String
  body : String
  deriving Repr

/-- Embedding of `response.ok`. -/
def FetchResponse.isOk (r : FetchResponse) : Bool :=
  decide (200 ≤ r.status) && decide (r.status < 300)

/-- Observable outcome of one `GET` run: the response (status, body,
`Content-Type`, `Cache-Control`), the URL fetched (if the handler got that
far), whether the conversion bridge was invoked, and the strip list passed
to it. -/
structure RouteOutcome where
  status : Nat
  body : String
  contentType : Option String
  cacheControl : Option String
  fetchedUrl : Option String
  convertCalled : Bool
  stripUsed : Option (List String)
  deriving Repr

/-- Body text of `NextResponse.json` with an error message. -/
def jsonErrorBody (msg : String) : String :=
  "\x7b\"error\":\"" ++ msg ++ "\"\x7d"

/-- Embedding of `GET` from `src/route.ts` (lines 17-87). Oracles: `env` is
`process.env`; `parseCfg` is `JSON.parse` applied to the config string
(`none` when it throws); `fetchFn` the network; `native` the conversion
boundary. The handler: 400 without the `x-gremllm-url` header; reads
`elementsToStrip` from the env config (defaulting to `[]` on any failure);
forwards a non-ok upstream status; 400 on a `Content-Type` not including
`text/html`; otherwise converts (with `convert` when the strip list is
non-empty, `convertWithDefaults` when empty) and replies 200
`text/markdown` with a cache header. -/
def routeGET (reqHeaders env : List (String × String))
    (parseCfg : String → Option GremllmCfg)
    (fetchFn : String → FetchResponse)
    (native : String → List String → Except Unit (Option String)) : RouteOutcome :=
  match assocGet reqHeaders "x-gremllm-url" with
  | none =>
      ⟨400, jsonErrorBody "Missing target URL", some "application/json",
        none, none, false, none⟩
  | some targetUrl =>
    let elementsToStrip : List String :=
      match assocGet env routeConfigEnvKey with
      | none => []
      | some configStr =>
        match parseCfg configStr with
        | none => []
        | some config => config.elementsToStrip.getD []
    let response := fetchFn targetUrl
    if !response.isOk then
      ⟨response.status, jsonErrorBody ("Failed to fetch: " ++ toString response.status),
        some "application/json", none, some targetUrl, false, none⟩
    else
      let contentType := response.contentTypeHdr.getD ""
      if !strIncludes contentType "text/html" then
        ⟨400, jsonErrorBody "Not an HTML page", some "application/json",
          none, some targetUrl, false, none⟩
      else
        let html := response.body
        let markdown :=
          if elementsToStrip.length > 0 then (convert native html elementsToStrip).result
          else (convertWithDefaults native html).result
        ⟨200, markdown, some "text/markdown; charset=utf-8",
          some "public, max-age=3600", some targetUrl, true, some elementsToStrip⟩

end Gremllm

/-! ## Sanity examples (concrete evaluations of the embedding) -/

example : Gremllm.getBinaryName "linux" "arm64" = .ok "libschema_linux_arm64.so" := rfl
example : Gremllm.getBinaryName "darwin" "ia32" = .ok "libschema_darwin_amd64.dylib" := rfl
example : Gremllm.getLocalFilename "freebsd" = .error "Unsupported platform: freebsd" := rfl
example : Gremllm.strIncludes "text/html; charset=utf-8" "text/html" = true := by decide
example : Gremllm.strIncludes "application/json" "text/html" = false := by decide
example : Gremllm.convert (fun _ _ => .ok none) "abc" [] = ⟨"abc", true⟩ := by decide
example : Gremllm.convert (fun _ _ => .ok (some "md")) "abc" [] = ⟨"md", true⟩ := by decide
example : Gremllm.convert (fun _ _ => .ok (some "md")) "" ["nav"] = ⟨"", false⟩ := by decide

namespace Gremllm

/-! ## Shared lemmas -/

/-- The function `List.find?` returns the first element satisfying the predicate: on
`l ++ c :: r` with nothing in `l` satisfying `p` and `p c`, it is `c`. -/
theorem find?_first_of_split {α : Type} (p : α → Bool) (l r : List α) (c : α)
    (hl : ∀ f ∈ l, p f = false) (hc : p c = true) :
    List.find? p (l ++ c :: r) = some c := by
  have h1 : List.find? p l = none :=
    List.find?_eq_none.mpr (by intro x hx; simp [hl x hx])
  rw [List.find?_append, h1, List.find?_cons_of_pos _ hc]
  rfl

/-- Looking up the key just set returns the value set. -/
theorem assocGet_assocSet_self (m : List (String × String)) (k v : String) :
    assocGet (assocSet m k v) k = some v := by
  unfold assocGet assocSet
  have h1 : List.find? (fun p => p.1 = k) (m.filter (fun p => p.1 ≠ k)) = none := by
    apply List.find?_eq_none.mpr
    intro x hx
    have hx2 := (List.mem_filter.mp hx).2
    simp at hx2 ⊢
    exact hx2
  rw [List.find?_append, h1]
  simp

/-- Setting one key does not change the lookup of a different key. -/
theorem assocGet_assocSet_ne (m : List (String × String)) (k k2 v : String)
    (h : k2 ≠ k) : assocGet (assocSet m k v) k2 = assocGet m k2 := by
  unfold assocGet assocSet
  have hk : List.find? (fun p => p.1 = k2) [(k, v)] = none := by
    have : ¬((k, v).1 = k2) := fun hc => h hc.symm
    rw [List.find?_cons_of_neg _ (by simpa using this)]
    rfl
  have hfilter : ∀ t : List (String × String),
      List.find? (fun p => p.1 = k2) (t.filter (fun p => p.1 ≠ k))
        = List.find? (fun p => p.1 = k2) t := by
    intro t
    induction t with
    | nil => rfl
    | cons a t ih =>
      by_cases ha : a.1 = k
      · have ha2 : ¬(a.1 = k2) := by rw [ha]; exact fun hc => h hc.symm
        rw [List.filter_cons, if_neg (by simp [ha]),
          List.find?_cons_of_neg _ (by simpa using ha2)]
        exact ih
      · rw [List.filter_cons, if_pos (by simp [ha])]
        by_cases hb : a.1 = k2
        · rw [List.find?_cons_of_pos _ (by simpa using hb),
            List.find?_cons_of_pos _ (by simpa using hb)]
        · rw [List.find?_cons_of_neg _ (by simpa using hb),
            List.find?_cons_of_neg _ (by simpa using hb)]
          exact ih
  rw [List.find?_append, hfilter m, hk]
  cases List.find? (fun p => p.1 = k2) m <;> rfl

/-- One redirect step of `downloadFile`: a 301/302 with a `Location`
re-issues the request there and adds one to the request count. -/
theorem downloadFile_redirect_step (resp : String → HttpResponse) (n : Nat)
    (url loc : String)
    (hs : (resp url).statusCode = 302 ∨ (resp url).statusCode = 301)
    (hl : (resp url).location = some loc) :
    downloadFile resp (n + 1) url
      = ((downloadFile resp n loc).1, (downloadFile resp n loc).2 + 1) := by
  simp only [downloadFile, hl]
  rw [if_pos hs]

/-- A 200 response terminates `downloadFile` with the body and one
request. -/
theorem downloadFile_200 (resp : String → HttpResponse) (n : Nat) (url : String)
    (h : (resp url).statusCode = 200) :
    downloadFile resp (n + 1) url = (Except.ok (resp url).body, 1) := by
  have h1 : ¬((resp url).statusCode = 302 ∨ (resp url).statusCode = 301) := by
    rw [h]; decide
  have h2 : ¬((resp url).statusCode ≠ 200) := fun hc => hc h
  simp only [downloadFile]
  rw [if_neg h1, if_neg h2]

/-- A 301/302 without a `Location` makes `downloadFile` fail with the
redirect error after one request. -/
theorem downloadFile_redirect_noloc (resp : String → HttpResponse) (n : Nat)
    (url : String)
    (hs : (resp url).statusCode = 302 ∨ (resp url).statusCode = 301)
    (hl : (resp url).location = none) :
    downloadFile resp (n + 1) url = (Except.error "Redirect without location", 1) := by
  simp only [downloadFile, hl]
  rw [if_pos hs]

/-- The function `pathJoin` is injective in its second argument. -/
theorem pathJoin_inj_right (b x y : String) (h : pathJoin b x = pathJoin b y) :
    x = y := by
  apply String.ext
  have hd := congrArg String.data h
  simp only [pathJoin, String.data_append, List.append_assoc,
    List.append_cancel_left_eq] at hd
  simpa using hd

/-- A platform with a local filename is one of the three supported OSes. -/
theorem getLocalFilename_ok_platform (p lf : String)
    (h : getLocalFilename p = Except.ok lf) :
    p = "darwin" ∨ p = "linux" ∨ p = "win32" := by
  by_contra hn
  push_neg at hn
  simp [getLocalFilename, hn.1, hn.2.1, hn.2.2] at h

/-- Whenever `getLocalFilename` succeeds, `getArchiveName` succeeds too, and
the two names differ. -/
theorem getArchiveName_ok_of_local (p a lf : String)
    (h : getLocalFilename p = Except.ok lf) :
    ∃ an, getArchiveName p a = Except.ok an ∧ lf ≠ an := by
  rcases getLocalFilename_ok_platform p lf h with hp | hp | hp <;> subst hp
  · have hlf : "libschema.dylib" = lf := by
      simpa [getLocalFilename] using h
    subst hlf
    by_cases ha : a = "arm64"
    · exact ⟨"libschema-darwin-arm64_darwin_arm64_v8.0.tar.gz",
        by simp [getArchiveName, ha], by decide⟩
    · exact ⟨"libschema-darwin-amd64_darwin_amd64_v1.tar.gz",
        by simp [getArchiveName, ha], by decide⟩
  · have hlf : "libschema.so" = lf := by
      simpa [getLocalFilename] using h
    subst hlf
    by_cases ha : a = "arm64"
    · exact ⟨"libschema-linux-arm64_linux_arm64_v8.0.tar.gz",
        by simp [getArchiveName, ha], by decide⟩
    · exact ⟨"libschema-linux-amd64_linux_amd64_v1.tar.gz",
        by simp [getArchiveName, ha], by decide⟩
  · have hlf : "libschema.dll" = lf := by
      simpa [getLocalFilename] using h
    subst hlf
    exact ⟨"libschema-windows-amd64_windows_amd64_v1.zip", rfl, by decide⟩

/-- When the canonical output path is already present, `main` is a no-op:
it succeeds, changes nothing, and issues zero network requests. -/
theorem mainRun_skip (p a d : String) (env : InstallEnv) (fs : List String)
    (an lf : String)
    (han : getArchiveName p a = Except.ok an)
    (hlf : getLocalFilename p = Except.ok lf)
    (hin : fs.contains (pathJoin (pathJoin d "../../binaries") lf) = true) :
    mainRun p a d env fs = ⟨Except.ok (), fs, 0⟩ := by
  simp only [mainRun, han, hlf]
  rw [if_pos hin]

/-- After any successful run of `main`, the canonical output path is among
the files present. -/
theorem mainRun_ok_contains (p a d : String) (env : InstallEnv) (fs : List String)
    (lf : String) (hlf : getLocalFilename p = Except.ok lf)
    (hok : (mainRun p a d env fs).result = Except.ok ()) :
    (mainRun p a d env fs).files.contains
      (pathJoin (pathJoin d "../../binaries") lf) = true := by
  obtain ⟨an, han, hne⟩ := getArchiveName_ok_of_local p a lf hlf
  have hdp : pathJoin (pathJoin d "../../binaries") lf
      ≠ pathJoin (pathJoin d "../../binaries") an :=
    fun hc => hne (pathJoin_inj_right _ _ _ hc)
  simp only [mainRun, han, hlf] at hok ⊢
  by_cases hin : fs.contains (pathJoin (pathJoin d "../../binaries") lf) = true
  · rw [if_pos hin]
    exact hin
  · rw [if_neg hin] at hok ⊢
    cases hfr : env.fetchRelease with
    | error e => simp [hfr] at hok
    | ok release =>
      simp only [hfr] at hok ⊢
      cases hfa : release.assets.find? (fun x => x.name = an) with
      | none => simp [hfa] at hok
      | some asset =>
        simp only [hfa] at hok ⊢
        cases hdl : (downloadFile env.resp env.fuel asset.browser_download_url).1 with
        | error e => simp [hdl] at hok
        | ok b =>
          simp only [hdl] at hok ⊢
          cases hex : extractArchive (pathJoin (pathJoin d "../../binaries") an)
              (pathJoin d "../../binaries") env.archiveFiles with
          | error e => simp [hex] at hok
          | ok extracted =>
            simp only [hex]
            apply List.elem_iff.mpr
            apply List.mem_filter.mpr
            refine ⟨List.mem_append_right _ (List.mem_singleton.mpr rfl), ?_⟩
            simpa using hdp

end Gremllm

namespace Gremllm

/-! ## Claim theorems -/

/-- C1 counterexample: an extracted archive holding two files that both
match the library-payload heuristic (`libschema` and `libschema.so`) does
not make extraction fail with an ambiguity error — `extractArchive`
succeeds and returns the first candidate. -/
theorem c1_counterexample :
    extractArchive "libschema-linux-amd64_linux_amd64_v1.tar.gz" "binaries"
      ["libschema", "libschema.so"]
      = Except.ok "binaries/.temp-extract/libschema" := rfl

/-- C1 (amended): for an archive of a supported format, extraction fails
only when zero files match the library-payload heuristic; when one or more
match, it succeeds and selects the first matching file in directory-listing
order. -/
theorem c1_amended_first_match (archivePath destDir : String) (files : List String)
    (hfmt : strEndsWith archivePath ".zip" = true ∨ strEndsWith archivePath ".tar.gz" = true) :
    ((∀ f ∈ files, isLibFileName f = false) →
       extractArchive archivePath destDir files
         = Except.error ("No library file found in archive: "
             ++ String.intercalate ", " files))
    ∧ (∀ l c r, files = l ++ c :: r → (∀ f ∈ l, isLibFileName f = false) →
        isLibFileName c = true →
        extractArchive archivePath destDir files
          = Except.ok (pathJoin (pathJoin destDir ".temp-extract") c)) := by
  have hcond : (!strEndsWith archivePath ".zip" && !strEndsWith archivePath ".tar.gz") = false := by
    rcases hfmt with h | h <;> simp [h]
  constructor
  · intro hnone
    have hfind : files.find? (fun f => isLibFileName f) = none :=
      List.find?_eq_none.mpr (by intro x hx; simp [hnone x hx])
    simp [extractArchive, hcond, hfind]
  · intro l c r hsplit hl hc
    subst hsplit
    have hfind : (l ++ c :: r).find? (fun f => isLibFileName f) = some c :=
      find?_first_of_split _ l r c hl hc
    simp [extractArchive, hcond, hfind]

/-- C1 witness: applying the amended theorem at a concrete archive listing
with a non-candidate followed by two candidates selects `libschema`. -/
theorem c1_amended_witness :
    extractArchive "libschema-linux-amd64_linux_amd64_v1.tar.gz" "bin"
      ["README.md", "libschema", "libschema.so"]
      = Except.ok "bin/.temp-extract/libschema" :=
  (c1_amended_first_match "libschema-linux-amd64_linux_amd64_v1.tar.gz" "bin"
      ["README.md", "libschema", "libschema.so"] (Or.inr (by decide))).2
    ["README.md"] "libschema" ["libschema.so"] rfl (by decide) (by decide)

/-- C2 counterexample: `("darwin", "ia32")` lies outside the supported
matrix, yet all three platform-resolution functions return a default
(amd64) artifact name instead of failing. -/
theorem c2_counterexample :
    getBinaryName "darwin" "ia32" = Except.ok "libschema_darwin_amd64.dylib"
    ∧ getLocalFilename "darwin" = Except.ok "libschema.dylib"
    ∧ getLibraryPath "darwin" "dir" "cwd" (fun _ => true)
        = Except.ok "dir/../../binaries/libschema.dylib" :=
  ⟨rfl, rfl, rfl⟩

/-- C2 (amended): the platform-resolution functions fail with an
unsupported-platform error exactly when the operating system is outside
`{darwin, linux, win32}` (the architecture is never checked for support:
on darwin/linux any non-arm64 architecture falls back to the amd64
artifact); the error names the offending platform (and, for
`getBinaryName`, also the architecture). -/
theorem c2_amended_unsupported_os (p a : String) :
    ((∃ s, getBinaryName p a = Except.ok s)
        ↔ (p = "darwin" ∨ p = "linux" ∨ p = "win32"))
    ∧ ((∃ s, getLocalFilename p = Except.ok s)
        ↔ (p = "darwin" ∨ p = "linux" ∨ p = "win32"))
    ∧ (¬(p = "darwin" ∨ p = "linux" ∨ p = "win32") →
        getBinaryName p a = Except.error ("Unsupported platform: " ++ p ++ " " ++ a)
        ∧ getLocalFilename p = Except.error ("Unsupported platform: " ++ p)
        ∧ ∀ dirname cwd existsFs,
            getLibraryPath p dirname cwd existsFs
              = Except.error ("Unsupported platform: " ++ p)) := by
  refine ⟨⟨?_, ?_⟩, ⟨?_, ?_⟩, ?_⟩
  · rintro ⟨s, hs⟩
    by_contra hn
    push_neg at hn
    simp [getBinaryName, hn.1, hn.2.1, hn.2.2] at hs
  · intro h
    rcases h with h | h | h <;> subst h
    · by_cases ha : a = "arm64"
      · exact ⟨"libschema_darwin_arm64.dylib", by simp [getBinaryName, ha]⟩
      · exact ⟨"libschema_darwin_amd64.dylib", by simp [getBinaryName, ha]⟩
    · by_cases ha : a = "arm64"
      · exact ⟨"libschema_linux_arm64.so", by simp [getBinaryName, ha]⟩
      · exact ⟨"libschema_linux_amd64.so", by simp [getBinaryName, ha]⟩
    · exact ⟨"libschema_windows_amd64.dll", rfl⟩
  · rintro ⟨s, hs⟩
    by_contra hn
    push_neg at hn
    simp [getLocalFilename, hn.1, hn.2.1, hn.2.2] at hs
  · intro h
    rcases h with h | h | h <;> subst h
    · exact ⟨"libschema.dylib", rfl⟩
    · exact ⟨"libschema.so", rfl⟩
    · exact ⟨"libschema.dll", rfl⟩
  · intro hn
    push_neg at hn
    refine ⟨?_, ?_, ?_⟩
    · simp [getBinaryName, hn.1, hn.2.1, hn.2.2]
    · simp [getLocalFilename, hn.1, hn.2.1, hn.2.2]
    · intro dirname cwd existsFs
      simp [getLibraryPath, libNameFor, hn.1, hn.2.1, hn.2.2]

/-- C2 witness: at the concrete unsupported platform `freebsd`, all three
functions fail with the unsupported-platform message. -/
theorem c2_amended_witness :
    getBinaryName "freebsd" "x64" = Except.error "Unsupported platform: freebsd x64"
    ∧ getLocalFilename "freebsd" = Except.error "Unsupported platform: freebsd"
    ∧ getLibraryPath "freebsd" "d" "w" (fun _ => false)
        = Except.error "Unsupported platform: freebsd" := by
  have h := (c2_amended_unsupported_os "freebsd" "x64").2.2 (by decide)
  exact ⟨h.1, h.2.1, h.2.2 "d" "w" (fun _ => false)⟩

/-- C3: whenever the native call returns a null pointer or throws, `convert`
returns exactly the original input html and reports no error outward. -/
theorem c3_convert_failure_passthrough
    (native : String → List String → Except Unit (Option String))
    (html : String) (strip : List String)
    (h : native html strip = Except.ok none ∨ native html strip = Except.error ()) :
    (convert native html strip).result = html := by
  by_cases he : html = ""
  · subst he; simp [convert]
  · rcases h with h | h <;> simp [convert, he, h]

/-- C3 witness: a native call that returns null at a concrete input makes
`convert` return that input unchanged. -/
theorem c3_witness :
    (convert (fun _ _ => Except.ok none) "<p>x</p>" ["nav"]).result = "<p>x</p>" :=
  c3_convert_failure_passthrough (fun _ _ => Except.ok none) "<p>x</p>" ["nav"]
    (Or.inl rfl)

/-- C9: with any strip list and any native boundary, `convert` on the empty
string returns the empty string and never crosses the native boundary. -/
theorem c9_convert_empty_short_circuit
    (native : String → List String → Except Unit (Option String))
    (elementsToStrip : List String) :
    convert native "" elementsToStrip = ⟨"", false⟩ := rfl

/-- C4: when the canonical output file already exists, the whole install
sequence is skipped with zero network requests; and after any successful
run of the install sequence, a second run issues zero network requests. -/
theorem c4_install_skip_idempotent (p a d : String) (env env2 : InstallEnv)
    (fs : List String) (lf : String)
    (hlf : getLocalFilename p = Except.ok lf) :
    (fs.contains (pathJoin (pathJoin d "../../binaries") lf) = true →
       mainRun p a d env fs = ⟨Except.ok (), fs, 0⟩)
    ∧ ((mainRun p a d env fs).result = Except.ok () →
       (mainRun p a d env2 (mainRun p a d env fs).files).requests = 0) := by
  obtain ⟨an, han, _⟩ := getArchiveName_ok_of_local p a lf hlf
  constructor
  · intro hin
    exact mainRun_skip p a d env fs an lf han hlf hin
  · intro hok
    have hcont := mainRun_ok_contains p a d env fs lf hlf hok
    rw [mainRun_skip p a d env2 _ an lf han hlf hcont]

/-- C4 witness: a concrete successful install run from an empty filesystem
(2 network requests), after which a second run issues zero requests. -/
theorem c4_witness :
    (mainRun "linux" "x64" "sd"
      ⟨Except.ok ⟨"v1", [⟨"libschema-linux-amd64_linux_amd64_v1.tar.gz", "https://dl/a"⟩]⟩,
        fun _ => ⟨200, none, "bytes"⟩, 1, ["libschema.so"]⟩ []).result = Except.ok ()
    ∧ (mainRun "linux" "x64" "sd"
        ⟨Except.ok ⟨"v1", [⟨"libschema-linux-amd64_linux_amd64_v1.tar.gz", "https://dl/a"⟩]⟩,
          fun _ => ⟨200, none, "bytes"⟩, 1, ["libschema.so"]⟩
        (mainRun "linux" "x64" "sd"
          ⟨Except.ok ⟨"v1", [⟨"libschema-linux-amd64_linux_amd64_v1.tar.gz", "https://dl/a"⟩]⟩,
            fun _ => ⟨200, none, "bytes"⟩, 1, ["libschema.so"]⟩ []).files).requests = 0 := by
  refine ⟨rfl, ?_⟩
  exact (c4_install_skip_idempotent "linux" "x64" "sd"
    ⟨Except.ok ⟨"v1", [⟨"libschema-linux-amd64_linux_amd64_v1.tar.gz", "https://dl/a"⟩]⟩,
      fun _ => ⟨200, none, "bytes"⟩, 1, ["libschema.so"]⟩
    ⟨Except.ok ⟨"v1", [⟨"libschema-linux-amd64_linux_amd64_v1.tar.gz", "https://dl/a"⟩]⟩,
      fun _ => ⟨200, none, "bytes"⟩, 1, ["libschema.so"]⟩
    [] "libschema.so" rfl).2 rfl

/-- C5: a 301/302 response with a `Location` header makes `downloadFile`
re-issue the request to the `Location` target — a redirect chain of length 2
ending in a 200 writes that final response's body, in 3 requests — and a
301/302 response without a `Location` header fails with the redirect
error. -/
theorem c5_download_redirects (resp : String → HttpResponse)
    (u0 u1 u2 : String) (fuel : Nat)
    (h0s : (resp u0).statusCode = 302 ∨ (resp u0).statusCode = 301)
    (h0l : (resp u0).location = some u1)
    (h1s : (resp u1).statusCode = 302 ∨ (resp u1).statusCode = 301)
    (h1l : (resp u1).location = some u2)
    (h2 : (resp u2).statusCode = 200) :
    downloadFile resp (fuel + 3) u0 = (Except.ok (resp u2).body, 3)
    ∧ ∀ u n, ((resp u).statusCode = 302 ∨ (resp u).statusCode = 301) →
        (resp u).location = none →
        downloadFile resp (n + 1) u = (Except.error "Redirect without location", 1) := by
  constructor
  · rw [show fuel + 3 = (fuel + 2) + 1 from rfl,
      downloadFile_redirect_step resp (fuel + 2) u0 u1 h0s h0l,
      show fuel + 2 = (fuel + 1) + 1 from rfl,
      downloadFile_redirect_step resp (fuel + 1) u1 u2 h1s h1l,
      downloadFile_200 resp fuel u2 h2]
  · intro u n hs hl
    exact downloadFile_redirect_noloc resp n u hs hl

/-- C5 witness: a concrete response oracle with a 302 → 301 → 200 chain from
`"a"` yields the final body in 3 requests, and a redirect without a location
at `"z"` fails. -/
theorem c5_witness :
    downloadFile
      (fun u => if u = "a" then ⟨302, some "b", ""⟩
        else if u = "b" then ⟨301, some "c", ""⟩
        else if u = "c" then ⟨200, none, "payload"⟩
        else ⟨302, none, ""⟩) 3 "a" = (Except.ok "payload", 3)
    ∧ downloadFile
      (fun u => if u = "a" then ⟨302, some "b", ""⟩
        else if u = "b" then ⟨301, some "c", ""⟩
        else if u = "c" then ⟨200, none, "payload"⟩
        else ⟨302, none, ""⟩) 1 "z" = (Except.error "Redirect without location", 1) := by
  have h := c5_download_redirects
    (fun u => if u = "a" then ⟨302, some "b", ""⟩
      else if u = "b" then ⟨301, some "c", ""⟩
      else if u = "c" then ⟨200, none, "payload"⟩
      else ⟨302, none, ""⟩) "a" "b" "c" 0
    (Or.inl rfl) rfl (Or.inr rfl) rfl rfl
  exact ⟨h.1, h.2 "z" 0 (Or.inl rfl) rfl⟩

/-- C6: without the `gremllm` query parameter the stage-1 detector passes
the request through (`null`); with it, it rewrites to the fixed conversion
endpoint `/api/gremllm` (same scheme and host, no query) and sets the
`x-gremllm-url` header to the original URL with the `gremllm` parameter
removed. -/
theorem c6_stage1_detector (request : Request) :
    (hasParam request.url "gremllm" = false → gremllmMiddleware request = none)
    ∧ (hasParam request.url "gremllm" = true →
        ∃ res : Rewrite, gremllmMiddleware request = some res
          ∧ res.rewriteUrl.scheme = request.url.scheme
          ∧ res.rewriteUrl.host = request.url.host
          ∧ res.rewriteUrl.path = "/api/gremllm"
          ∧ res.rewriteUrl.query = []
          ∧ assocGet res.headers "x-gremllm-url"
              = some (urlToString (deleteParam request.url "gremllm"))) := by
  constructor
  · intro h
    simp [gremllmMiddleware, h]
  · intro h
    refine ⟨⟨resolveAgainst "/api/gremllm" request.url,
        assocSet request.headers "x-gremllm-url"
          (urlToString (deleteParam request.url "gremllm"))⟩, ?_, rfl, rfl, rfl, rfl, ?_⟩
    · simp [gremllmMiddleware, h, resolveAgainst]
    · exact assocGet_assocSet_self _ _ _

/-- C6 witness: `https://host/about?gremllm=1` is rewritten with the header
carrying `https://host/about`; `https://host/about` passes through. -/
theorem c6_witness :
    gremllmMiddleware ⟨⟨"https", "host", "/about", []⟩, []⟩ = none
    ∧ ∃ res : Rewrite,
        gremllmMiddleware ⟨⟨"https", "host", "/about", [("gremllm", "1")]⟩, []⟩ = some res
        ∧ res.rewriteUrl.path = "/api/gremllm"
        ∧ assocGet res.headers "x-gremllm-url" = some "https://host/about" := by
  constructor
  · exact (c6_stage1_detector ⟨⟨"https", "host", "/about", []⟩, []⟩).1 rfl
  · obtain ⟨res, hsome, _, _, hpath, _, hhdr⟩ :=
      (c6_stage1_detector ⟨⟨"https", "host", "/about", [("gremllm", "1")]⟩, []⟩).2 rfl
    exact ⟨res, hsome, hpath, hhdr.trans rfl⟩

/-- C7: when the fetched upstream response is ok but its `Content-Type` does
not include `text/html`, the stage-2 invoker replies 400 with the
`Not an HTML page` error and never invokes the conversion bridge. -/
theorem c7_non_html_rejected (reqHeaders env : List (String × String))
    (parseCfg : String → Option GremllmCfg) (fetchFn : String → FetchResponse)
    (native : String → List String → Except Unit (Option String)) (targetUrl : String)
    (h1 : assocGet reqHeaders "x-gremllm-url" = some targetUrl)
    (h2 : (fetchFn targetUrl).isOk = true)
    (h3 : strIncludes ((fetchFn targetUrl).contentTypeHdr.getD "") "text/html" = false) :
    routeGET reqHeaders env parseCfg fetchFn native
      = ⟨400, jsonErrorBody "Not an HTML page", some "application/json",
          none, some targetUrl, false, none⟩ := by
  simp [routeGET, h1, h2, h3]

/-- C7 witness: an upstream `Content-Type: application/json` response is
rejected with 400 and the conversion bridge is not invoked. -/
theorem c7_witness :
    routeGET [("x-gremllm-url", "https://site/about")] [] (fun _ => none)
      (fun _ => ⟨200, some "application/json", "\x7b\x7d"⟩)
      (fun _ _ => Except.ok none)
      = ⟨400, jsonErrorBody "Not an HTML page", some "application/json",
          none, some "https://site/about", false, none⟩ :=
  c7_non_html_rejected [("x-gremllm-url", "https://site/about")] [] (fun _ => none)
    (fun _ => ⟨200, some "application/json", "\x7b\x7d"⟩)
    (fun _ _ => Except.ok none) "https://site/about" rfl rfl rfl

/-- C8: the stage-2 handler never reads the `GREMLLM_BASE_URL` override:
setting it in the environment does not change any observable of `routeGET`,
and at the documented failing input the handler fetches the external
`https://yourdomain.com/path` instead of substituting
`http://localhost:3000`. -/
theorem c8_base_url_override_unread :
    (∀ (reqHeaders env : List (String × String))
        (parseCfg : String → Option GremllmCfg) (fetchFn : String → FetchResponse)
        (native : String → List String → Except Unit (Option String)) (v : String),
        routeGET reqHeaders (assocSet env "GREMLLM_BASE_URL" v) parseCfg fetchFn native
          = routeGET reqHeaders env parseCfg fetchFn native)
    ∧ (routeGET [("x-gremllm-url", "https://yourdomain.com/path")]
         [("GREMLLM_BASE_URL", "http://localhost:3000")]
         (fun _ => none) (fun _ => ⟨200, some "text/html", "<p>hi</p>"⟩)
         (fun _ _ => Except.ok (some "hi"))).fetchedUrl
        = some "https://yourdomain.com/path" := by
  constructor
  · intro reqHeaders env parseCfg fetchFn native v
    have henv : assocGet (assocSet env "GREMLLM_BASE_URL" v) routeConfigEnvKey
        = assocGet env routeConfigEnvKey :=
      assocGet_assocSet_ne env "GREMLLM_BASE_URL" routeConfigEnvKey v (by decide)
    simp [routeGET, henv]
  · rfl

/-- C10: the key `withGremllm` publishes the serialised configuration under
(`__GREMLLM_CONFIG__`) differs from the key the stage-2 route handler reads
(`GREMLLM_CONFIG`); consequently the route sees no configuration published
by `withGremllm`, and at the concrete configured input the strip list used
is the empty default rather than the configured `["header"]`. -/
theorem c10_config_key_mismatch :
    withGremllmEnvKey ≠ routeConfigEnvKey
    ∧ (∀ (baseEnv : List (String × String)) (serialized : String),
        assocGet baseEnv routeConfigEnvKey = none →
        assocGet (withGremllmEnv baseEnv serialized) routeConfigEnvKey = none)
    ∧ (routeGET [("x-gremllm-url", "https://site/about")]
         (withGremllmEnv [] "\x7b\"elementsToStrip\":[\"header\"]\x7d")
         (fun _ => some ⟨some ["header"], false⟩)
         (fun _ => ⟨200, some "text/html; charset=utf-8", "<h1>t</h1>"⟩)
         (fun _ _ => Except.ok (some "# t"))).stripUsed = some [] := by
  refine ⟨by decide, ?_, ?_⟩
  · intro baseEnv serialized hbase
    simp only [withGremllmEnv]
    rw [assocGet_assocSet_ne baseEnv withGremllmEnvKey routeConfigEnvKey serialized
      (by decide)]
    exact hbase
  · rfl

/-- C10 witness: publishing any serialised config through `withGremllm` over
an empty base environment leaves the route's config key unset. -/
theorem c10_witness :
    assocGet (withGremllmEnv [] "cfg") routeConfigEnvKey = none :=
  c10_config_key_mismatch.2.1 [] "cfg" rfl

end Gremllm
